import Mathlib

/-!
Shallow embedding of the `iron-cors` CORS middleware (src/src/lib.rs).

The middleware wraps a downstream handler. We model:
* `Origin`     — the parsed `Origin` request header (scheme, hostname, optional port),
  mirroring iron's `headers::Origin` as used by the code.
* `Method`     — the request method; only `OPTIONS` is distinguished by the code,
  other methods are carried verbatim.
* `Headers`    — the typed response-header map restricted to the headers this
  middleware reads or writes (`Access-Control-Allow-Origin`, `-Methods`,
  `-Headers`), plus an opaque list for all other headers.  Iron's typed
  `headers.set` replaces exactly the one typed slot, which the record updates model.
* `Response` / `IronError` — a response is (status, headers, body); an iron error
  carries its own embedded `response`.
* `Handler σ`  — a downstream handler threading an opaque state `σ`, so that the
  number of downstream invocations is observable (the boxed iron handler is an
  opaque effectful object).

Each Rust function of the middleware is translated one-to-one below, keeping the
source's names.  `HashSet<String>` is modelled as a `List String` with `contains`
(exact string equality), which is all the code uses of it.
-/

/-- iron's `headers::Origin`: scheme, hostname and optional port. -/
structure Origin where
  scheme : String
  hostname : String
  port : Option Nat
deriving DecidableEq, Repr

/-- Request methods; the middleware only ever tests for `Options`. -/
inductive Method where
  | options
  | get
  | post
  | put
  | other (name : String)
deriving DecidableEq, Repr

/-- The `Access-Control-Allow-Origin` header value: iron's
`AccessControlAllowOrigin::Any` (serialized `*`) or `::Value(origin)`. -/
inductive AllowOrigin where
  | any
  | value (origin : String)
deriving DecidableEq, Repr

/-- Typed response headers: the three CORS headers the middleware writes,
plus all remaining headers, opaque to the middleware. -/
structure Headers where
  allowOrigin : Option AllowOrigin
  allowMethods : Option (List Method)
  allowHeaders : Option (List String)
  other : List (String × String)
deriving DecidableEq, Repr

/-- `Headers::new()`: the empty header map. -/
def Headers.new : Headers :=
  { allowOrigin := none, allowMethods := none, allowHeaders := none, other := [] }

/-- `headers.set(AccessControlAllowOrigin(v))`: replaces exactly that typed slot. -/
def Headers.setAllowOrigin (hs : Headers) (v : AllowOrigin) : Headers :=
  { hs with allowOrigin := some v }

/-- `headers.set(AccessControlAllowMethods(v))`. -/
def Headers.setAllowMethods (hs : Headers) (v : List Method) : Headers :=
  { hs with allowMethods := some v }

/-- `headers.set(AccessControlAllowHeaders(v))`. -/
def Headers.setAllowHeaders (hs : Headers) (v : List String) : Headers :=
  { hs with allowHeaders := some v }

/-- Read-only view of the inbound request: the method and the three request
headers the middleware consumes. -/
structure Request where
  method : Method
  origin : Option Origin
  accessControlRequestMethod : Option Method
  accessControlRequestHeaders : Option (List String)
deriving DecidableEq, Repr

/-- An HTTP response: status code, headers, body. -/
structure Response where
  status : Nat
  headers : Headers
  body : String
deriving DecidableEq, Repr

/-- `Response::with((status, body))`: given status and body, empty headers. -/
def Response.make (status : Nat) (body : String) : Response :=
  { status := status, headers := Headers.new, body := body }

/-- iron's `IronError`: carries its own embedded response. -/
structure IronError where
  response : Response
deriving DecidableEq, Repr

/-- `IronResult<Response>`. -/
abbrev IronResult := Except IronError Response

/-- A downstream boxed handler, threading an opaque handler state `σ`. -/
def Handler (σ : Type) : Type := Request → σ → IronResult × σ

/-- A handler built from a pure result function that counts its invocations
(state `Nat` incremented on each call). -/
def countingHandler (f : Request → IronResult) : Handler Nat :=
  fun req n => (f req, n + 1)

/-- `format_cors_origin` (src/src/lib.rs:273-278): the canonical string form
`scheme://host` or `scheme://host:port`. -/
def format_cors_origin (origin : Origin) : String :=
  match origin.port with
  | some port => origin.scheme ++ "://" ++ origin.hostname ++ ":" ++ toString port
  | none => origin.scheme ++ "://" ++ origin.hostname

namespace CorsHandlerWhitelist

/-- `CorsHandlerWhitelist::add_cors_header` (lib.rs:108-111). -/
def add_cors_header (headers : Headers) (origin : Origin) : Headers :=
  headers.setAllowOrigin (AllowOrigin.value (format_cors_origin origin))

/-- `CorsHandlerWhitelist::add_cors_preflight_headers` (lib.rs:113-128). -/
def add_cors_preflight_headers (headers : Headers) (origin : Origin)
    (acrm : Method) (acrh : Option (List String)) : Headers :=
  let headers := add_cors_header headers origin
  let headers := headers.setAllowMethods [acrm]
  match acrh with
  | some requested => headers.setAllowHeaders requested
  | none => headers

/-- `CorsHandlerWhitelist::process_possible_cors_request` (lib.rs:159-173). -/
def process_possible_cors_request {σ : Type} (allowed_hosts : List String)
    (handler : Handler σ) (req : Request) (origin : Origin) (s : σ) :
    IronResult × σ :=
  let may_process := allowed_hosts.contains (format_cors_origin origin)
  if may_process then
    let (result, s') := handler req s
    (match result with
     | Except.ok res =>
         Except.ok { res with headers := add_cors_header res.headers origin }
     | Except.error err =>
         Except.error { err with
           response := { err.response with
             headers := add_cors_header err.response.headers origin } },
     s')
  else
    (Except.ok (Response.make 400 "Invalid CORS request: Origin not allowed"), s)

/-- `CorsHandlerWhitelist::process_possible_preflight` (lib.rs:130-157). -/
def process_possible_preflight {σ : Type} (allowed_hosts : List String)
    (handler : Handler σ) (req : Request) (origin : Origin) (s : σ) :
    IronResult × σ :=
  let may_process := allowed_hosts.contains (format_cors_origin origin)
  if ¬ may_process then
    (Except.ok (Response.make 400 "Invalid CORS request: Origin not allowed"), s)
  else
    match req.accessControlRequestMethod with
    | some acrm =>
        let acrh := req.accessControlRequestHeaders
        let response := Response.make 200 ""
        let response := { response with
          headers := add_cors_preflight_headers response.headers origin acrm acrh }
        (Except.ok response, s)
    | none => process_possible_cors_request allowed_hosts handler req origin s

/-- `<CorsHandlerWhitelist as Handler>::handle` (lib.rs:182-199). -/
def handle {σ : Type} (allowed_hosts : List String) (handler : Handler σ)
    (req : Request) (s : σ) : IronResult × σ :=
  match req.origin with
  | none => handler req s
  | some origin =>
    match req.method with
    | Method.options => process_possible_preflight allowed_hosts handler req origin s
    | _ => process_possible_cors_request allowed_hosts handler req origin s

end CorsHandlerWhitelist

namespace CorsHandlerAllowAny

/-- `CorsHandlerAllowAny::add_cors_header` (lib.rs:202-204). -/
def add_cors_header (headers : Headers) : Headers :=
  headers.setAllowOrigin AllowOrigin.any

/-- `CorsHandlerAllowAny::add_cors_preflight_headers` (lib.rs:206-220). -/
def add_cors_preflight_headers (headers : Headers)
    (acrm : Method) (acrh : Option (List String)) : Headers :=
  let headers := add_cors_header headers
  let headers := headers.setAllowMethods [acrm]
  match acrh with
  | some requested => headers.setAllowHeaders requested
  | none => headers

/-- `CorsHandlerAllowAny::process_possible_cors_request` (lib.rs:243-248). -/
def process_possible_cors_request {σ : Type} (handler : Handler σ)
    (req : Request) (s : σ) : IronResult × σ :=
  let (result, s') := handler req s
  (match result with
   | Except.ok res =>
       Except.ok { res with headers := add_cors_header res.headers }
   | Except.error err =>
       Except.error { err with
         response := { err.response with
           headers := add_cors_header err.response.headers } },
   s')

/-- `CorsHandlerAllowAny::process_possible_preflight` (lib.rs:222-241). -/
def process_possible_preflight {σ : Type} (handler : Handler σ)
    (req : Request) (s : σ) : IronResult × σ :=
  match req.accessControlRequestMethod with
  | some acrm =>
      let acrh := req.accessControlRequestHeaders
      let response := Response.make 200 ""
      let response := { response with
        headers := add_cors_preflight_headers response.headers acrm acrh }
      (Except.ok response, s)
  | none => process_possible_cors_request handler req s

/-- `<CorsHandlerAllowAny as Handler>::handle` (lib.rs:255-271). -/
def handle {σ : Type} (handler : Handler σ) (req : Request) (s : σ) :
    IronResult × σ :=
  match req.origin with
  | none => handler req s
  | some _ =>
    match req.method with
    | Method.options => process_possible_preflight handler req s
    | _ => process_possible_cors_request handler req s

end CorsHandlerAllowAny

/-- `CorsMiddleware` (lib.rs:60-62): `allowed_hosts: Option<HashSet<String>>`. -/
structure CorsMiddleware where
  allowed_hosts : Option (List String)

/-- `CorsMiddleware::with_whitelist` (lib.rs:66-70). -/
def CorsMiddleware.with_whitelist (allowed_hosts : List String) : CorsMiddleware :=
  { allowed_hosts := some allowed_hosts }

/-- `CorsMiddleware::with_allow_any` (lib.rs:75-79). -/
def CorsMiddleware.with_allow_any : CorsMiddleware :=
  { allowed_hosts := none }

/-- `<CorsMiddleware as AroundMiddleware>::around` (lib.rs:82-94): dispatch to
the whitelist handler or the allow-any handler. -/
def CorsMiddleware.around {σ : Type} (m : CorsMiddleware) (handler : Handler σ) :
    Handler σ :=
  match m.allowed_hosts with
  | some allowed_hosts => fun req s =>
      CorsHandlerWhitelist.handle allowed_hosts handler req s
  | none => fun req s =>
      CorsHandlerAllowAny.handle handler req s

/-- The `Access-Control-Allow-Origin` header of a result's response (whether
the downstream result was a success or an error with embedded response). -/
def resultAllowOrigin : IronResult → Option AllowOrigin
  | Except.ok res => res.headers.allowOrigin
  | Except.error err => err.response.headers.allowOrigin

/-- The status of a result's response (success response or the error's
embedded response). -/
def resultStatus : IronResult → Nat
  | Except.ok res => res.status
  | Except.error err => err.response.status

/-- The body of a result's response (success response or the error's
embedded response). -/
def resultBody : IronResult → String
  | Except.ok res => res.body
  | Except.error err => err.response.body

/-- A GET request with no `Origin` header. -/
def noOriginGet : Request :=
  { method := Method.get, origin := none,
    accessControlRequestMethod := none, accessControlRequestHeaders := none }

/-- A downstream handler answering 200 / "Hello, world!" (tests/integration.rs). -/
def helloHandler : Handler Unit :=
  fun _ s => (Except.ok (Response.make 200 "Hello, world!"), s)

/-- The pure result of the hello handler, for counting instantiations. -/
def helloResult : Request → IronResult :=
  fun _ => Except.ok (Response.make 200 "Hello, world!")

/-- A downstream handler raising an error with embedded 500 / "Oh noes"
(tests/integration.rs `ErrorResultHandler`). -/
def errorResult : Request → IronResult :=
  fun _ => Except.error { response := Response.make 500 "Oh noes" }

/-- The origin `http://example.org:3000`. -/
def exampleOrigin3000 : Origin :=
  { scheme := "http", hostname := "example.org", port := some 3000 }

/-- C1: the claim states that in whitelist mode a request with no `Origin`
header is rejected with status 400 and body "Invalid CORS request: Origin
header missing".  Counterexample: with whitelist `["http://example.org:3000"]`
and a downstream handler answering 200 / "Hello, world!", a GET request with
no `Origin` header does not produce that rejection — the code forwards the
request to the downstream handler instead (lib.rs:187-189). -/
theorem whitelist_missing_origin_rejects_counterexample :
    CorsHandlerWhitelist.handle ["http://example.org:3000"] helloHandler noOriginGet ()
      ≠ (Except.ok (Response.make 400 "Invalid CORS request: Origin header missing"), ()) := by
  intro h
  have hst := congrArg (fun p => resultStatus p.1) h
  simp [CorsHandlerWhitelist.handle, helloHandler, noOriginGet, Response.make,
    resultStatus] at hst

/-- C1 (amended): in whitelist mode, for every configured whitelist, a request
that carries no `Origin` header is not rejected: it is forwarded to the
downstream handler and the handler's result (state included) is returned
unchanged, with no CORS headers added. -/
theorem whitelist_missing_origin_passthrough {σ : Type}
    (allowed_hosts : List String) (handler : Handler σ) (req : Request) (s : σ)
    (horig : req.origin = none) :
    CorsHandlerWhitelist.handle allowed_hosts handler req s = handler req s := by
  unfold CorsHandlerWhitelist.handle
  rw [horig]

/-- C1 (amended) witness: the concrete no-origin GET against whitelist
`["http://example.org:3000"]` yields exactly the hello handler's result. -/
theorem whitelist_missing_origin_passthrough_witness :
    CorsHandlerWhitelist.handle ["http://example.org:3000"] helloHandler noOriginGet ()
      = helloHandler noOriginGet () :=
  whitelist_missing_origin_passthrough ["http://example.org:3000"] helloHandler
    noOriginGet () rfl

/-- C9: in whitelist mode, for every configured whitelist, a request with no
`Origin` header is forwarded to the downstream handler exactly once and its
result — success or error — is returned completely unchanged: the result is
the handler's own result, a counting handler is invoked exactly once, and the
value returned is the downstream function's value with no modification. -/
theorem whitelist_no_origin_forwarded_once {σ : Type}
    (allowed_hosts : List String) (handler : Handler σ) (req : Request) (s : σ)
    (f : Request → IronResult) (n : Nat) (horig : req.origin = none) :
    CorsHandlerWhitelist.handle allowed_hosts handler req s = handler req s
    ∧ (CorsHandlerWhitelist.handle allowed_hosts (countingHandler f) req n).2 = n + 1
    ∧ (CorsHandlerWhitelist.handle allowed_hosts (countingHandler f) req n).1 = f req := by
  refine ⟨?_, ?_, ?_⟩ <;> (unfold CorsHandlerWhitelist.handle; rw [horig]) <;> rfl

/-- C9 witness: concrete no-origin GET, whitelist `["http://example.org:3000"]`,
error-raising downstream handler: result unchanged, invoked exactly once. -/
theorem whitelist_no_origin_forwarded_once_witness :
    CorsHandlerWhitelist.handle ["http://example.org:3000"] (countingHandler errorResult) noOriginGet 0
        = countingHandler errorResult noOriginGet 0
    ∧ (CorsHandlerWhitelist.handle ["http://example.org:3000"] (countingHandler errorResult) noOriginGet 0).2 = 0 + 1
    ∧ (CorsHandlerWhitelist.handle ["http://example.org:3000"] (countingHandler errorResult) noOriginGet 0).1 = errorResult noOriginGet :=
  whitelist_no_origin_forwarded_once ["http://example.org:3000"]
    (countingHandler errorResult) noOriginGet 0 errorResult 0 rfl

/-- C2: the claim states that allow-any mode has a `permit_missing_origin`
flag and that with the flag false a request with no `Origin` header is
rejected with status 400 and the missing-origin body.  Counterexample: the
code's `with_allow_any` takes no such flag (lib.rs:75-79), and the allow-any
handler forwards every no-origin request to the downstream handler
(lib.rs:258-260): with the hello handler, the concrete no-origin GET does not
produce the claimed rejection. -/
theorem allow_any_missing_origin_flag_counterexample :
    CorsHandlerAllowAny.handle helloHandler noOriginGet ()
      ≠ (Except.ok (Response.make 400 "Invalid CORS request: Origin header missing"), ()) := by
  intro h
  have hst := congrArg (fun p => resultStatus p.1) h
  simp [CorsHandlerAllowAny.handle, helloHandler, noOriginGet, Response.make,
    resultStatus] at hst

/-- C2 (amended): in allow-any mode there is no `permit_missing_origin`
configuration flag; every request that carries no `Origin` header is passed
through unconditionally: the downstream handler is invoked exactly once and
its result is returned with zero CORS headers added. -/
theorem allow_any_missing_origin_passthrough {σ : Type}
    (handler : Handler σ) (req : Request) (s : σ)
    (f : Request → IronResult) (n : Nat) (horig : req.origin = none) :
    CorsHandlerAllowAny.handle handler req s = handler req s
    ∧ (CorsHandlerAllowAny.handle (countingHandler f) req n).2 = n + 1
    ∧ (CorsHandlerAllowAny.handle (countingHandler f) req n).1 = f req := by
  refine ⟨?_, ?_, ?_⟩ <;> (unfold CorsHandlerAllowAny.handle; rw [horig]) <;> rfl

/-- C2 (amended) witness: concrete no-origin GET in allow-any mode with the
hello handler: result unchanged, invoked exactly once. -/
theorem allow_any_missing_origin_passthrough_witness :
    CorsHandlerAllowAny.handle (countingHandler helloResult) noOriginGet 0
        = countingHandler helloResult noOriginGet 0
    ∧ (CorsHandlerAllowAny.handle (countingHandler helloResult) noOriginGet 0).2 = 0 + 1
    ∧ (CorsHandlerAllowAny.handle (countingHandler helloResult) noOriginGet 0).1 = helloResult noOriginGet :=
  allow_any_missing_origin_passthrough (countingHandler helloResult) noOriginGet 0
    helloResult 0 rfl

/-- Equation lemma: the whitelist simple-request processing, written with the
downstream call's components exposed. -/
theorem whitelist_simple_eq {σ : Type} (allowed_hosts : List String)
    (handler : Handler σ) (req : Request) (origin : Origin) (s : σ) :
    CorsHandlerWhitelist.process_possible_cors_request allowed_hosts handler req origin s =
      if allowed_hosts.contains (format_cors_origin origin) = true then
        (match (handler req s).1 with
         | Except.ok res =>
             Except.ok { res with headers := { res.headers with
               allowOrigin := some (AllowOrigin.value (format_cors_origin origin)) } }
         | Except.error err =>
             Except.error { err with response := { err.response with
               headers := { err.response.headers with
                 allowOrigin := some (AllowOrigin.value (format_cors_origin origin)) } } },
         (handler req s).2)
      else
        (Except.ok (Response.make 400 "Invalid CORS request: Origin not allowed"), s) := rfl

/-- Equation lemma: the allow-any simple-request processing, written with the
downstream call's components exposed. -/
theorem allow_any_simple_eq {σ : Type} (handler : Handler σ) (req : Request) (s : σ) :
    CorsHandlerAllowAny.process_possible_cors_request handler req s =
      (match (handler req s).1 with
       | Except.ok res =>
           Except.ok { res with headers := { res.headers with
             allowOrigin := some AllowOrigin.any } }
       | Except.error err =>
           Except.error { err with response := { err.response with
             headers := { err.response.headers with
               allowOrigin := some AllowOrigin.any } } },
       (handler req s).2) := rfl

/-- The headers an allowed whitelist preflight response carries. -/
def whitelistPreflightHeaders (origin : Origin) (m : Method)
    (acrh : Option (List String)) : Headers :=
  { allowOrigin := some (AllowOrigin.value (format_cors_origin origin)),
    allowMethods := some [m],
    allowHeaders := acrh,
    other := [] }

/-- The headers an allow-any preflight response carries. -/
def allowAnyPreflightHeaders (m : Method) (acrh : Option (List String)) : Headers :=
  { allowOrigin := some AllowOrigin.any,
    allowMethods := some [m],
    allowHeaders := acrh,
    other := [] }

/-- Equation lemma: an allowed whitelist preflight (origin in the whitelist,
`Access-Control-Request-Method` present) yields 200, empty body, the echoed
canonical origin, the single requested method, and the requested headers
echoed exactly when present. -/
theorem whitelist_preflight_ok_eq {σ : Type} (allowed_hosts : List String)
    (handler : Handler σ) (req : Request) (origin : Origin) (m : Method) (s : σ)
    (hmem : allowed_hosts.contains (format_cors_origin origin) = true)
    (hacrm : req.accessControlRequestMethod = some m) :
    CorsHandlerWhitelist.process_possible_preflight allowed_hosts handler req origin s =
      (Except.ok
        { status := 200, body := "",
          headers := whitelistPreflightHeaders origin m req.accessControlRequestHeaders },
       s) := by
  have hmem' : format_cors_origin origin ∈ allowed_hosts := by simpa using hmem
  unfold CorsHandlerWhitelist.process_possible_preflight
  simp only [hacrm]
  cases hacrh : req.accessControlRequestHeaders <;>
    simp [hacrh, hmem', whitelistPreflightHeaders,
      CorsHandlerWhitelist.add_cors_preflight_headers,
      CorsHandlerWhitelist.add_cors_header, Headers.setAllowOrigin,
      Headers.setAllowMethods, Headers.setAllowHeaders, Response.make, Headers.new]

/-- Equation lemma: an allow-any preflight (`Access-Control-Request-Method`
present) yields 200, empty body, the wildcard allow-origin, the single
requested method, and the requested headers echoed exactly when present. -/
theorem allow_any_preflight_ok_eq {σ : Type} (handler : Handler σ)
    (req : Request) (m : Method) (s : σ)
    (hacrm : req.accessControlRequestMethod = some m) :
    CorsHandlerAllowAny.process_possible_preflight handler req s =
      (Except.ok
        { status := 200, body := "",
          headers := allowAnyPreflightHeaders m req.accessControlRequestHeaders },
       s) := by
  unfold CorsHandlerAllowAny.process_possible_preflight
  simp only [hacrm]
  cases hacrh : req.accessControlRequestHeaders <;>
    simp [hacrh, allowAnyPreflightHeaders,
      CorsHandlerAllowAny.add_cors_preflight_headers,
      CorsHandlerAllowAny.add_cors_header, Headers.setAllowOrigin,
      Headers.setAllowMethods, Headers.setAllowHeaders, Response.make, Headers.new]

/-- Equation lemma: a whitelist rejection (origin not in the whitelist) at
either processing entry point yields 400, the fixed body, no headers, and the
handler state unchanged. -/
theorem whitelist_reject_eq {σ : Type} (allowed_hosts : List String)
    (handler : Handler σ) (req : Request) (origin : Origin) (s : σ)
    (hmem : allowed_hosts.contains (format_cors_origin origin) = false) :
    CorsHandlerWhitelist.process_possible_preflight allowed_hosts handler req origin s
      = (Except.ok (Response.make 400 "Invalid CORS request: Origin not allowed"), s)
    ∧ CorsHandlerWhitelist.process_possible_cors_request allowed_hosts handler req origin s
      = (Except.ok (Response.make 400 "Invalid CORS request: Origin not allowed"), s) := by
  have hmem' : format_cors_origin origin ∉ allowed_hosts := by simpa using hmem
  constructor
  · unfold CorsHandlerWhitelist.process_possible_preflight
    simp [hmem']
  · unfold CorsHandlerWhitelist.process_possible_cors_request
    simp [hmem']

/-- The whitelist handler invokes the downstream handler at most once per
request, for every request and whitelist. -/
theorem whitelist_count_le (allowed_hosts : List String)
    (f : Request → IronResult) (req : Request) (n : Nat) :
    (CorsHandlerWhitelist.handle allowed_hosts (countingHandler f) req n).2 ≤ n + 1 := by
  have hsimple : ∀ origin,
      (CorsHandlerWhitelist.process_possible_cors_request allowed_hosts
        (countingHandler f) req origin n).2 ≤ n + 1 := by
    intro origin
    unfold CorsHandlerWhitelist.process_possible_cors_request
    by_cases hc : format_cors_origin origin ∈ allowed_hosts <;>
      simp [hc, countingHandler]
  unfold CorsHandlerWhitelist.handle
  cases horig : req.origin with
  | none => simp [countingHandler]
  | some origin =>
    cases req.method with
    | options =>
      unfold CorsHandlerWhitelist.process_possible_preflight
      by_cases hc : format_cors_origin origin ∈ allowed_hosts
      · cases hacrm : req.accessControlRequestMethod with
        | some m => simp [hc, hacrm]
        | none => simpa [hc, hacrm] using hsimple origin
      · simp [hc]
    | get => exact hsimple origin
    | post => exact hsimple origin
    | put => exact hsimple origin
    | other name => exact hsimple origin

/-- The allow-any handler invokes the downstream handler at most once per
request, for every request. -/
theorem allow_any_count_le (f : Request → IronResult) (req : Request) (n : Nat) :
    (CorsHandlerAllowAny.handle (countingHandler f) req n).2 ≤ n + 1 := by
  have hsimple :
      (CorsHandlerAllowAny.process_possible_cors_request (countingHandler f) req n).2 ≤ n + 1 := by
    rw [allow_any_simple_eq]
    simp [countingHandler]
  unfold CorsHandlerAllowAny.handle
  cases horig : req.origin with
  | none => simp [countingHandler]
  | some origin =>
    cases req.method with
    | options =>
      unfold CorsHandlerAllowAny.process_possible_preflight
      cases hacrm : req.accessControlRequestMethod with
      | some m => simp [hacrm]
      | none => simpa [hacrm] using hsimple
    | get => exact hsimple
    | post => exact hsimple
    | put => exact hsimple
    | other name => exact hsimple

/-- A GET request from `http://example.org:3000`. -/
def originGet3000 : Request :=
  { method := Method.get, origin := some exampleOrigin3000,
    accessControlRequestMethod := none, accessControlRequestHeaders := none }

/-- The preflight of tests/integration.rs: OPTIONS from `http://example.org:3000`
with requested method GET and requested headers `header1, header2`. -/
def preflightReq : Request :=
  { method := Method.options, origin := some exampleOrigin3000,
    accessControlRequestMethod := some Method.get,
    accessControlRequestHeaders := some ["header1", "header2"] }

/-- The same preflight but without `Access-Control-Request-Headers`. -/
def preflightReqNoAcrh : Request :=
  { method := Method.options, origin := some exampleOrigin3000,
    accessControlRequestMethod := some Method.get,
    accessControlRequestHeaders := none }

/-- An OPTIONS request from `http://example.org:3000` without
`Access-Control-Request-Method`. -/
def optionsNoAcrm : Request :=
  { method := Method.options, origin := some exampleOrigin3000,
    accessControlRequestMethod := none, accessControlRequestHeaders := none }

/-- The origin `http://forbidden.org`. -/
def forbiddenOrigin : Origin :=
  { scheme := "http", hostname := "forbidden.org", port := none }

/-- A GET request from the forbidden origin. -/
def forbiddenGet : Request :=
  { method := Method.get, origin := some forbiddenOrigin,
    accessControlRequestMethod := none, accessControlRequestHeaders := none }

/-- The 500 / "Oh noes" downstream error, decorated with an allow-origin value. -/
def errorDecorated (ao : AllowOrigin) : IronResult :=
  Except.error
    { response :=
        { status := 500, headers := { Headers.new with allowOrigin := some ao },
          body := "Oh noes" } }

/-- C3: in whitelist mode the decision for a request carrying an origin is
allowed (downstream result decorated with the canonical origin) exactly when
the canonical string form `scheme://host` or `scheme://host:port` is a member
of the configured set by exact string equality, and otherwise the 400
"Origin not allowed" rejection; port-sensitivity: `"http://example.com"` does
not match origin `http://example.com:3000` and `"http://example.com:3000"`
does not match origin `http://example.com`. -/
theorem whitelist_exact_string_match {σ : Type} (allowed_hosts : List String)
    (handler : Handler σ) (req : Request) (origin : Origin) (s : σ) :
    (CorsHandlerWhitelist.process_possible_cors_request allowed_hosts handler req origin s =
      if allowed_hosts.contains (format_cors_origin origin) = true then
        (match (handler req s).1 with
         | Except.ok res =>
             Except.ok { res with headers := { res.headers with
               allowOrigin := some (AllowOrigin.value (format_cors_origin origin)) } }
         | Except.error err =>
             Except.error { err with response := { err.response with
               headers := { err.response.headers with
                 allowOrigin := some (AllowOrigin.value (format_cors_origin origin)) } } },
         (handler req s).2)
      else
        (Except.ok (Response.make 400 "Invalid CORS request: Origin not allowed"), s))
    ∧ format_cors_origin { scheme := "http", hostname := "example.com", port := some 3000 }
        = "http://example.com:3000"
    ∧ ["http://example.com"].contains "http://example.com:3000" = false
    ∧ format_cors_origin { scheme := "http", hostname := "example.com", port := none }
        = "http://example.com"
    ∧ ["http://example.com:3000"].contains "http://example.com" = false :=
  ⟨whitelist_simple_eq allowed_hosts handler req origin s,
   by decide, by decide, by decide, by decide⟩

/-- C4: for every allowed preflight (origin decision allowed,
`Access-Control-Request-Method` present) the response is status 200 with an
empty body, the allow-origin header is the decision's value (the canonical
origin in whitelist mode, the wildcard in allow-any mode), the allow-methods
header is the single-element list containing exactly the requested method,
and the allow-headers header equals the request's
`Access-Control-Request-Headers` verbatim (present iff present, same order). -/
theorem preflight_allowed_response {σ : Type} (allowed_hosts : List String)
    (handler : Handler σ) (req : Request) (origin : Origin) (m : Method) (s : σ)
    (hmem : allowed_hosts.contains (format_cors_origin origin) = true)
    (hacrm : req.accessControlRequestMethod = some m) :
    CorsHandlerWhitelist.process_possible_preflight allowed_hosts handler req origin s =
      (Except.ok
        { status := 200, body := "",
          headers := whitelistPreflightHeaders origin m req.accessControlRequestHeaders },
       s)
    ∧ CorsHandlerAllowAny.process_possible_preflight handler req s =
      (Except.ok
        { status := 200, body := "",
          headers := allowAnyPreflightHeaders m req.accessControlRequestHeaders },
       s) :=
  ⟨whitelist_preflight_ok_eq allowed_hosts handler req origin m s hmem hacrm,
   allow_any_preflight_ok_eq handler req m s hacrm⟩

/-- C4 witness: the concrete preflight of tests/integration.rs — whitelist
`["http://example.org:3000"]`, requested method GET, requested headers
`header1, header2` — gives 200, empty body, echoed origin/method/headers, in
both modes. -/
theorem preflight_allowed_response_witness :
    CorsHandlerWhitelist.process_possible_preflight ["http://example.org:3000"]
        helloHandler preflightReq exampleOrigin3000 () =
      (Except.ok
        { status := 200, body := "",
          headers := whitelistPreflightHeaders exampleOrigin3000 Method.get
            (some ["header1", "header2"]) },
       ())
    ∧ CorsHandlerAllowAny.process_possible_preflight helloHandler preflightReq () =
      (Except.ok
        { status := 200, body := "",
          headers := allowAnyPreflightHeaders Method.get (some ["header1", "header2"]) },
       ()) :=
  preflight_allowed_response ["http://example.org:3000"] helloHandler preflightReq
    exampleOrigin3000 Method.get () (by decide) rfl

/-- C5: for every allowed non-preflight request the downstream handler is
invoked and, whether it returns a success response or an error with an
embedded response, the only modification is setting the allow-origin header
on that response object; status, body and all other header slots are
unchanged, an error result stays an error, and the handler's state is
whatever the single downstream call produced.  Both modes. -/
theorem allowed_simple_decoration {σ : Type} (allowed_hosts : List String)
    (handler : Handler σ) (req : Request) (origin : Origin) (s : σ)
    (hmem : allowed_hosts.contains (format_cors_origin origin) = true) :
    CorsHandlerWhitelist.process_possible_cors_request allowed_hosts handler req origin s =
      (match (handler req s).1 with
       | Except.ok res =>
           Except.ok { res with headers := { res.headers with
             allowOrigin := some (AllowOrigin.value (format_cors_origin origin)) } }
       | Except.error err =>
           Except.error { err with response := { err.response with
             headers := { err.response.headers with
               allowOrigin := some (AllowOrigin.value (format_cors_origin origin)) } } },
       (handler req s).2)
    ∧ CorsHandlerAllowAny.process_possible_cors_request handler req s =
      (match (handler req s).1 with
       | Except.ok res =>
           Except.ok { res with headers := { res.headers with
             allowOrigin := some AllowOrigin.any } }
       | Except.error err =>
           Except.error { err with response := { err.response with
             headers := { err.response.headers with
               allowOrigin := some AllowOrigin.any } } },
       (handler req s).2) := by
  constructor
  · rw [whitelist_simple_eq, if_pos hmem]
  · exact allow_any_simple_eq handler req s

/-- C5 witness: with the downstream handler that always raises the 500 /
"Oh noes" error, an allowed GET from `http://example.org:3000` propagates the
error with status 500, body "Oh noes", and only the allow-origin header
added; the counting state shows exactly one downstream invocation. -/
theorem allowed_simple_decoration_witness :
    CorsHandlerWhitelist.process_possible_cors_request ["http://example.org:3000"]
        (countingHandler errorResult) originGet3000 exampleOrigin3000 0 =
      (errorDecorated (AllowOrigin.value "http://example.org:3000"), 1)
    ∧ CorsHandlerAllowAny.process_possible_cors_request
        (countingHandler errorResult) originGet3000 0 =
      (errorDecorated AllowOrigin.any, 1) := by
  have h := allowed_simple_decoration ["http://example.org:3000"]
    (countingHandler errorResult) originGet3000 exampleOrigin3000 0 (by decide)
  exact ⟨h.1.trans rfl, h.2.trans rfl⟩

/-- C6: the only requests the policy rejects are whitelist-mode requests with
a non-member origin (at both the preflight and the simple entry points, so a
rejected preflight included): there the downstream handler is never invoked
(the handler state is returned unchanged, and a counting handler records zero
invocations through `handle`), and the result is an ordinary success-typed
`Except.ok` response with status 400, the fixed plaintext body, and no
headers set (`Response.make` carries `Headers.new`).  Moreover the downstream
handler is invoked at most once per request overall, in both modes. -/
theorem rejected_never_downstream {σ : Type} (allowed_hosts : List String)
    (handler : Handler σ) (req req' : Request) (origin : Origin) (s : σ)
    (f : Request → IronResult) (n : Nat)
    (hmem : allowed_hosts.contains (format_cors_origin origin) = false)
    (horig : req.origin = some origin) :
    CorsHandlerWhitelist.process_possible_preflight allowed_hosts handler req origin s
      = (Except.ok (Response.make 400 "Invalid CORS request: Origin not allowed"), s)
    ∧ CorsHandlerWhitelist.process_possible_cors_request allowed_hosts handler req origin s
      = (Except.ok (Response.make 400 "Invalid CORS request: Origin not allowed"), s)
    ∧ (CorsHandlerWhitelist.handle allowed_hosts (countingHandler f) req n).2 = n
    ∧ (CorsHandlerWhitelist.handle allowed_hosts (countingHandler f) req' n).2 ≤ n + 1
    ∧ (CorsHandlerAllowAny.handle (countingHandler f) req' n).2 ≤ n + 1 := by
  obtain ⟨hp, hs2⟩ := whitelist_reject_eq allowed_hosts handler req origin s hmem
  obtain ⟨hpc, hsc⟩ :=
    whitelist_reject_eq allowed_hosts (countingHandler f) req origin n hmem
  refine ⟨hp, hs2, ?_, whitelist_count_le allowed_hosts f req' n,
    allow_any_count_le f req' n⟩
  unfold CorsHandlerWhitelist.handle
  simp only [horig]
  cases hm : req.method <;> simp [hpc, hsc]

/-- C6 witness: whitelist `["http://example.org:3000"]` and the forbidden
origin `http://forbidden.org`: the simple entry point yields the ordinary 400
response and `handle` on the forbidden GET leaves the invocation count at 0. -/
theorem rejected_never_downstream_witness :
    CorsHandlerWhitelist.process_possible_cors_request ["http://example.org:3000"]
        helloHandler forbiddenGet forbiddenOrigin ()
      = (Except.ok (Response.make 400 "Invalid CORS request: Origin not allowed"), ())
    ∧ (CorsHandlerWhitelist.handle ["http://example.org:3000"]
        (countingHandler helloResult) forbiddenGet 0).2 = 0 :=
  ⟨(rejected_never_downstream ["http://example.org:3000"] helloHandler forbiddenGet
      preflightReq forbiddenOrigin () helloResult 0 (by decide) rfl).2.1,
   (rejected_never_downstream ["http://example.org:3000"] helloHandler forbiddenGet
      preflightReq forbiddenOrigin () helloResult 0 (by decide) rfl).2.2.1⟩

/-- C7: in allow-any mode every request carrying an Origin header — whatever
its value and on every path (preflight, simple success, simple error) —
produces a response whose `Access-Control-Allow-Origin` header is the
wildcard variant `AllowOrigin.any`, which is distinct from the specific
origin value `AllowOrigin.value (format_cors_origin o)`. -/
theorem allow_any_wildcard_origin {σ : Type} (handler : Handler σ) (req : Request)
    (o : Origin) (s : σ) (horig : req.origin = some o) :
    resultAllowOrigin (CorsHandlerAllowAny.handle handler req s).1 = some AllowOrigin.any
    ∧ AllowOrigin.any ≠ AllowOrigin.value (format_cors_origin o) := by
  refine ⟨?_, by intro h; exact AllowOrigin.noConfusion h⟩
  have hsimple :
      resultAllowOrigin (CorsHandlerAllowAny.process_possible_cors_request handler req s).1
        = some AllowOrigin.any := by
    rw [allow_any_simple_eq]
    cases hr : (handler req s).1 <;> simp [hr, resultAllowOrigin]
  unfold CorsHandlerAllowAny.handle
  simp only [horig]
  cases hmet : req.method with
  | options =>
    cases hacrm : req.accessControlRequestMethod with
    | some m =>
      rw [allow_any_preflight_ok_eq handler req m s hacrm]
      simp [resultAllowOrigin, allowAnyPreflightHeaders]
    | none =>
      unfold CorsHandlerAllowAny.process_possible_preflight
      simpa [hacrm] using hsimple
  | get => exact hsimple
  | post => exact hsimple
  | put => exact hsimple
  | other name => exact hsimple

/-- C7 witness: the GET from `http://example.org:3000` in allow-any mode with
the hello handler yields the wildcard allow-origin header. -/
theorem allow_any_wildcard_origin_witness :
    resultAllowOrigin (CorsHandlerAllowAny.handle helloHandler originGet3000 ()).1
      = some AllowOrigin.any
    ∧ AllowOrigin.any ≠ AllowOrigin.value (format_cors_origin exampleOrigin3000) :=
  allow_any_wildcard_origin helloHandler originGet3000 exampleOrigin3000 () rfl

/-- A POST request from `http://example.org:3000` that carries
`Access-Control-Request-Method`: not OPTIONS, hence not a preflight. -/
def postWithAcrm : Request :=
  { method := Method.post, origin := some exampleOrigin3000,
    accessControlRequestMethod := some Method.get,
    accessControlRequestHeaders := none }

/-- C8: for every request carrying an Origin header, in both modes, `handle`
performs preflight handling exactly when the method is OPTIONS and
`Access-Control-Request-Method` is present (whitelist: the 200 preflight
response when the origin is allowed, the 400 rejection otherwise; allow-any:
the 200 preflight response), and in every other case — OPTIONS without
`Access-Control-Request-Method` and non-OPTIONS requests with or without it,
whatever the policy decision — equals the ordinary simple-request processing
function, which invokes the downstream handler and decorates its response
subject to the policy decision. -/
theorem options_preflight_classification {σ : Type} (allowed_hosts : List String)
    (handler : Handler σ) (req : Request) (origin : Origin) (s : σ)
    (horig : req.origin = some origin) :
    (CorsHandlerWhitelist.handle allowed_hosts handler req s =
      match req.method, req.accessControlRequestMethod with
      | Method.options, some m =>
          if allowed_hosts.contains (format_cors_origin origin) = true then
            (Except.ok
              { status := 200, body := "",
                headers := whitelistPreflightHeaders origin m
                  req.accessControlRequestHeaders },
             s)
          else
            (Except.ok (Response.make 400 "Invalid CORS request: Origin not allowed"), s)
      | _, _ =>
          CorsHandlerWhitelist.process_possible_cors_request allowed_hosts handler req origin s)
    ∧ (CorsHandlerAllowAny.handle handler req s =
      match req.method, req.accessControlRequestMethod with
      | Method.options, some m =>
          (Except.ok
            { status := 200, body := "",
              headers := allowAnyPreflightHeaders m req.accessControlRequestHeaders },
           s)
      | _, _ => CorsHandlerAllowAny.process_possible_cors_request handler req s) := by
  constructor
  · unfold CorsHandlerWhitelist.handle
    simp only [horig]
    cases hmet : req.method with
    | options =>
      cases hacrm : req.accessControlRequestMethod with
      | some m =>
        by_cases hc : format_cors_origin origin ∈ allowed_hosts
        · have hcb : allowed_hosts.contains (format_cors_origin origin) = true := by
            simpa using hc
          rw [whitelist_preflight_ok_eq allowed_hosts handler req origin m s hcb hacrm]
          simp [hc]
        · have hcb : allowed_hosts.contains (format_cors_origin origin) = false := by
            simpa using hc
          rw [(whitelist_reject_eq allowed_hosts handler req origin s hcb).1]
          simp [hc]
      | none =>
        by_cases hc : format_cors_origin origin ∈ allowed_hosts
        · unfold CorsHandlerWhitelist.process_possible_preflight
          simp [hc, hacrm]
        · have hcb : allowed_hosts.contains (format_cors_origin origin) = false := by
            simpa using hc
          obtain ⟨hp, hs2⟩ := whitelist_reject_eq allowed_hosts handler req origin s hcb
          rw [hp]
          simp [hs2]
    | get => rfl
    | post => rfl
    | put => rfl
    | other name => rfl
  · unfold CorsHandlerAllowAny.handle
    simp only [horig]
    cases hmet : req.method with
    | options =>
      cases hacrm : req.accessControlRequestMethod with
      | some m =>
        rw [allow_any_preflight_ok_eq handler req m s hacrm]
      | none =>
        unfold CorsHandlerAllowAny.process_possible_preflight
        simp [hacrm]
    | get => rfl
    | post => rfl
    | put => rfl
    | other name => rfl

/-- C8 witness: concrete requests from `http://example.org:3000`: the POST
carrying `Access-Control-Request-Method` and the OPTIONS without it are both
processed by the simple-request path in both modes, while the full preflight
request gets the 200 preflight response in both modes. -/
theorem options_preflight_classification_witness :
    CorsHandlerWhitelist.handle ["http://example.org:3000"] helloHandler postWithAcrm ()
      = CorsHandlerWhitelist.process_possible_cors_request ["http://example.org:3000"]
          helloHandler postWithAcrm exampleOrigin3000 ()
    ∧ CorsHandlerAllowAny.handle helloHandler postWithAcrm ()
      = CorsHandlerAllowAny.process_possible_cors_request helloHandler postWithAcrm ()
    ∧ CorsHandlerWhitelist.handle ["http://example.org:3000"] helloHandler optionsNoAcrm ()
      = CorsHandlerWhitelist.process_possible_cors_request ["http://example.org:3000"]
          helloHandler optionsNoAcrm exampleOrigin3000 ()
    ∧ CorsHandlerWhitelist.handle ["http://example.org:3000"] helloHandler preflightReq ()
      = (Except.ok
          { status := 200, body := "",
            headers := whitelistPreflightHeaders exampleOrigin3000 Method.get
              (some ["header1", "header2"]) },
         ())
    ∧ CorsHandlerAllowAny.handle helloHandler preflightReq ()
      = (Except.ok
          { status := 200, body := "",
            headers := allowAnyPreflightHeaders Method.get (some ["header1", "header2"]) },
         ()) := by
  have h1 := options_preflight_classification ["http://example.org:3000"] helloHandler
    postWithAcrm exampleOrigin3000 () rfl
  have h2 := options_preflight_classification ["http://example.org:3000"] helloHandler
    optionsNoAcrm exampleOrigin3000 () rfl
  have h3 := options_preflight_classification ["http://example.org:3000"] helloHandler
    preflightReq exampleOrigin3000 () rfl
  exact ⟨h1.1.trans rfl, h1.2.trans rfl, h2.1.trans rfl, h3.1.trans rfl, h3.2.trans rfl⟩

/-- C10: for every allowed preflight in which `Access-Control-Request-Headers`
is absent, the response carries no `Access-Control-Allow-Headers` header at
all: its header map has `allowHeaders = none` and sets only the allow-origin
and allow-methods slots, in both whitelist and allow-any mode. -/
theorem preflight_absent_requested_headers {σ : Type} (allowed_hosts : List String)
    (handler : Handler σ) (req : Request) (origin : Origin) (m : Method) (s : σ)
    (hmem : allowed_hosts.contains (format_cors_origin origin) = true)
    (hacrm : req.accessControlRequestMethod = some m)
    (hacrh : req.accessControlRequestHeaders = none) :
    CorsHandlerWhitelist.process_possible_preflight allowed_hosts handler req origin s =
      (Except.ok
        { status := 200, body := "",
          headers := { allowOrigin := some (AllowOrigin.value (format_cors_origin origin)),
                       allowMethods := some [m], allowHeaders := none, other := [] } },
       s)
    ∧ CorsHandlerAllowAny.process_possible_preflight handler req s =
      (Except.ok
        { status := 200, body := "",
          headers := { allowOrigin := some AllowOrigin.any,
                       allowMethods := some [m], allowHeaders := none, other := [] } },
       s) := by
  have h1 := whitelist_preflight_ok_eq allowed_hosts handler req origin m s hmem hacrm
  have h2 := allow_any_preflight_ok_eq handler req m s hacrm
  rw [hacrh] at h1 h2
  exact ⟨h1, h2⟩

/-- C10 witness: the concrete preflight without requested headers from
`http://example.org:3000` gets a response whose allow-headers slot is empty
in both modes. -/
theorem preflight_absent_requested_headers_witness :
    CorsHandlerWhitelist.process_possible_preflight ["http://example.org:3000"]
        helloHandler preflightReqNoAcrh exampleOrigin3000 () =
      (Except.ok
        { status := 200, body := "",
          headers := { allowOrigin := some (AllowOrigin.value "http://example.org:3000"),
                       allowMethods := some [Method.get], allowHeaders := none,
                       other := [] } },
       ())
    ∧ CorsHandlerAllowAny.process_possible_preflight helloHandler preflightReqNoAcrh () =
      (Except.ok
        { status := 200, body := "",
          headers := { allowOrigin := some AllowOrigin.any,
                       allowMethods := some [Method.get], allowHeaders := none,
                       other := [] } },
       ()) :=
  preflight_absent_requested_headers ["http://example.org:3000"] helloHandler
    preflightReqNoAcrh exampleOrigin3000 Method.get () (by decide) rfl rfl
